import Mathlib

/-!
Verification of the filament-manager inventory logic.

Shallow embedding of the profile-centric revision of `src/index.ts`
together with the `profiles`/`filaments` tables of `src/db/schema.ts`.
Numeric form values are modelled as `Option ℚ`: the result of the
JavaScript `Number(...)` / `parseFloat(...)` parse, with `none` standing
for NaN.  The database is modelled as in-memory lists of rows; each
route handler becomes a function from a store (and the parsed form) to
`Except AppError Store`.
-/

namespace FilamentManager

/-- Decidable equality of handler results, so that witnesses can be
checked by evaluation. -/
instance {ε α : Type} [DecidableEq ε] [DecidableEq α] : DecidableEq (Except ε α)
  | .ok a, .ok b =>
    if h : a = b then .isTrue (by rw [h]) else .isFalse (fun hh => h (Except.ok.inj hh))
  | .ok _, .error _ => .isFalse (fun hh => Except.noConfusion hh)
  | .error _, .ok _ => .isFalse (fun hh => Except.noConfusion hh)
  | .error e, .error e2 =>
    if h : e = e2 then .isTrue (by rw [h]) else .isFalse (fun hh => h (Except.error.inj hh))

/-- Result of parsing a numeric form field in JavaScript: `none` is NaN
(the field was unparsable, or - for `parseFloat` - absent). -/
abbrev JsNum := Option ℚ

/-- JavaScript `v || d` on a parsed number: NaN (`none`) and `0` are falsy
and yield the default `d`. -/
def numOr (v : JsNum) (d : ℚ) : ℚ :=
  match v with
  | none => d
  | some q => if q = 0 then d else q

/-- JavaScript `v || null` on a parsed number: NaN and `0` become `null`. -/
def numOrNull (v : JsNum) : Option ℚ :=
  match v with
  | none => none
  | some q => if q = 0 then none else some q

/-- JavaScript falsiness of a nullable string: `null` and `""` are falsy. -/
def strFalsy (v : Option String) : Bool :=
  match v with
  | none => true
  | some s => s == ""

/-- JavaScript truthiness of an optional number (`undefined`, NaN and `0`
are falsy), as used by `if (profileId)` in `fetchFilaments`. -/
def jsTruthy (v : JsNum) : Bool :=
  match v with
  | none => false
  | some q => !(q == 0)

/-- Row of the `profiles` table (src/db/schema.ts). -/
structure Profile where
  id : ℚ
  vendor : String
  material : String
  density : ℚ
  diameter : ℚ
deriving DecidableEq

/-- Row of the `filaments` table (src/db/schema.ts), profile-centric
revision with `remaining_g`. -/
structure Filament where
  id : ℚ
  name : String
  profile_id : ℚ
  color_hex : String
  price_eur : ℚ
  weight_g : ℚ
  spool_weight_g : ℚ
  remaining_g : ℚ
  print_temp_min : ℚ
  print_temp_max : ℚ
  created_at : ℕ
deriving DecidableEq

/-- The persistent state: the two tables. -/
structure Store where
  profiles : List Profile
  filaments : List Filament
deriving DecidableEq

/-- Error responses of the route handlers (400-class texts). -/
inductive AppError where
  | validation : String → AppError
  | conflict : String → AppError
deriving DecidableEq

/-- Submitted filament form: each `formData.get` result, with numeric
fields already put through `Number(...)` (so an absent field is `some 0`
for those, since `Number(null) = 0`) or `parseFloat` for the price (an
absent field is `none`, since `parseFloat(null)` is NaN). -/
structure FilamentForm where
  name : Option String
  profile_id : JsNum
  color_hex : Option String
  weight_g : JsNum
  spool_weight_g : JsNum
  remaining_g : JsNum
  print_temp_min : JsNum
  print_temp_max : JsNum
  price_eur : JsNum
deriving DecidableEq

/-- The `Partial<Filament>` produced by `parseFilamentFormData`. -/
structure ParsedFilament where
  name : Option String
  profile_id : ℚ
  color_hex : Option String
  weight_g : ℚ
  spool_weight_g : ℚ
  remaining_g : ℚ
  print_temp_min : Option ℚ
  print_temp_max : Option ℚ
  price_eur : Option ℚ
deriving DecidableEq

/-- `parseFilamentFormData(formData, isEdit)` (index.ts lines 955-978):
on create it computes `remaining_g = Math.max(weight_g - spool_weight_g, 0)`;
on edit it takes the submitted `remaining_g` field instead. -/
def parseFilamentFormData (form : FilamentForm) (isEdit : Bool) : ParsedFilament :=
  let weight_g := numOr form.weight_g 0
  let spool_weight_g := numOr form.spool_weight_g 0
  let remaining_g :=
    if !isEdit then max (weight_g - spool_weight_g) 0
    else numOr form.remaining_g 0
  { name := form.name
    profile_id := numOr form.profile_id 0
    color_hex := form.color_hex
    weight_g := weight_g
    spool_weight_g := spool_weight_g
    remaining_g := remaining_g
    print_temp_min := numOrNull form.print_temp_min
    print_temp_max := numOrNull form.print_temp_max
    price_eur := numOrNull form.price_eur }

/-- Handler `POST /filaments/new` (index.ts lines 981-1007): validate
name and profile_id, then insert a row built from the parsed data with
`?? 0` / `?? '#000000'` fallbacks; `created_at` defaults to the insert
time (`defaultNow()` in the schema). -/
def postFilamentsNew (st : Store) (form : FilamentForm) (newId : ℚ) (now : ℕ) :
    Except AppError Store :=
  let fd := parseFilamentFormData form false
  if strFalsy fd.name || fd.profile_id == 0 then
    .error (.validation "Name and Spool are required.")
  else
    .ok { st with filaments := st.filaments ++
      [{ id := newId
         name := fd.name.getD ""
         profile_id := fd.profile_id
         color_hex := fd.color_hex.getD "#000000"
         price_eur := fd.price_eur.getD 0
         weight_g := fd.weight_g
         spool_weight_g := fd.spool_weight_g
         remaining_g := fd.remaining_g
         print_temp_min := fd.print_temp_min.getD 0
         print_temp_max := fd.print_temp_max.getD 0
         created_at := now }] }

/-- Handler `POST /filaments/:id/update` (index.ts lines 1037-1071):
validate, then `set` every column except `id` and `created_at`.  The
handler also computes `Math.max(weight_g - spool_weight_g, 0)` into a
local `remaining_g` that the `set` never reads: the stored value is the
submitted `filamentData.remaining_g ?? 0`. -/
def postFilamentsUpdate (st : Store) (id : ℚ) (form : FilamentForm) :
    Except AppError Store :=
  let fd := parseFilamentFormData form true
  if strFalsy fd.name || fd.profile_id == 0 then
    .error (.validation "Name and Profile are required.")
  else
    .ok { st with filaments := st.filaments.map (fun f =>
      if f.id == id then
        { f with
          name := fd.name.getD ""
          profile_id := fd.profile_id
          color_hex := fd.color_hex.getD "#000000"
          weight_g := fd.weight_g
          spool_weight_g := fd.spool_weight_g
          remaining_g := fd.remaining_g
          print_temp_min := fd.print_temp_min.getD 0
          print_temp_max := fd.print_temp_max.getD 0
          price_eur := fd.price_eur.getD 0 }
      else f) }

/-- Handler `POST /filaments/:id/delete` (index.ts lines 1074-1088):
delete where `id` matches, with no existence check; always redirects. -/
def postFilamentsDelete (st : Store) (id : ℚ) : Except AppError Store :=
  .ok { st with filaments := st.filaments.filter (fun f => !(f.id == id)) }

/-- Handler `POST /profiles/:id/delete` (index.ts lines 772-792): count
the filaments referencing the profile; refuse with a 400 text when the
count is positive, otherwise delete the matching profile rows. -/
def postProfilesDelete (st : Store) (id : ℚ) : Except AppError Store :=
  let inUse := (st.filaments.filter (fun f => f.profile_id == id)).length
  if inUse > 0 then
    .error (.conflict "This profile cannot be deleted because it is used by filaments.")
  else
    .ok { st with profiles := st.profiles.filter (fun p => !(p.id == id)) }

/-- Submitted profile form (numeric fields through `Number(...)`). -/
structure ProfileForm where
  vendor : Option String
  material : Option String
  density : JsNum
  diameter : JsNum
deriving DecidableEq

/-- The `Partial<Profile>` produced by `parseProfileFormData`. -/
structure ParsedProfile where
  vendor : Option String
  material : Option String
  density : ℚ
  diameter : ℚ
deriving DecidableEq

/-- `parseProfileFormData` (index.ts lines 709-716): density and
diameter fall back to 1.24 and 1.75 via `Number(...) || default`. -/
def parseProfileFormData (form : ProfileForm) : ParsedProfile :=
  { vendor := form.vendor
    material := form.material
    density := numOr form.density 1.24
    diameter := numOr form.diameter 1.75 }

/-- Handler `POST /profiles/new` (index.ts lines 719-738): reject when
any parsed field is falsy, otherwise insert the parsed values. -/
def postProfilesNew (st : Store) (form : ProfileForm) (newId : ℚ) :
    Except AppError Store :=
  let pd := parseProfileFormData form
  if strFalsy pd.vendor || strFalsy pd.material || pd.density == 0 || pd.diameter == 0 then
    .error (.validation "Vendor, Material, Density, and Diameter are required.")
  else
    .ok { st with profiles := st.profiles ++
      [{ id := newId
         vendor := pd.vendor.getD ""
         material := pd.material.getD ""
         density := pd.density
         diameter := pd.diameter }] }

/-- JavaScript `Math.round`: round half toward positive infinity. -/
def jsRound (q : ℚ) : ℤ := (q + 1 / 2).floor

/-- Percent shown on the index page (index.ts lines 464-467):
`f.remaining_g > 0 ? Math.round((f.remaining_g / (f.weight_g - f.spool_weight_g)) * 100) : 0`.
In ℚ a zero denominator makes the quotient 0 where JavaScript floats give
Infinity, so theorems touching that case assume the denominator nonzero. -/
def percentage (f : Filament) : ℤ :=
  if f.remaining_g > 0 then
    jsRound (f.remaining_g / (f.weight_g - f.spool_weight_g) * 100)
  else 0

/-- One row of the `fetchFilaments` join result. -/
structure FilamentWithProfile where
  filament : Filament
  profile : Profile
deriving DecidableEq

/-- The `innerJoin(profiles, eq(filaments.profile_id, profiles.id))`. -/
def joinFilamentsProfiles (st : Store) : List FilamentWithProfile :=
  st.filaments.flatMap (fun f =>
    (st.profiles.filter (fun p => p.id == f.profile_id)).map
      (fun p => { filament := f, profile := p }))

/-- Comparator for `orderBy(desc(filaments.created_at))`. -/
def newestFirst (a b : FilamentWithProfile) : Bool :=
  decide (b.filament.created_at ≤ a.filament.created_at)

/-- `fetchFilaments(profileId?)` (index.ts lines 369-390): join, filter
when the profile id is truthy, order newest first; a failing store
access (`Except.error`) is caught and degraded to the empty list.  The
first component returns the store access untouched: the query performs
no write. -/
def fetchFilamentsOp (db : Except String Store) (profileId : JsNum) :
    Except String Store × List FilamentWithProfile :=
  match db with
  | .error _ => (db, [])
  | .ok st =>
    let rows := joinFilamentsProfiles st
    let rows := if jsTruthy profileId then
        rows.filter (fun r => r.filament.profile_id == profileId.getD 0)
      else rows
    (db, rows.mergeSort newestFirst)

/-! Concrete fixtures for evaluating the handlers at specific inputs. -/

/-- A store with no rows. -/
def emptyStore : Store := { profiles := [], filaments := [] }

/-- A fully filled create form: 1000 g gross, 200 g spool tare. -/
def fxCreateForm : FilamentForm :=
  { name := some "Spool One"
    profile_id := some 1
    color_hex := some "#ff6600"
    weight_g := some 1000
    spool_weight_g := some 200
    remaining_g := some 0
    print_temp_min := some 190
    print_temp_max := some 220
    price_eur := some 20 }

/-- The row `fxCreateForm` inserts (id 1, created at time 5). -/
def fxCreated : Filament :=
  { id := 1
    name := "Spool One"
    profile_id := 1
    color_hex := "#ff6600"
    price_eur := 20
    weight_g := 1000
    spool_weight_g := 200
    remaining_g := 800
    print_temp_min := 190
    print_temp_max := 220
    created_at := 5 }

/-- The store after inserting `fxCreated` into the empty store. -/
def fxCreatedStore : Store := { profiles := [], filaments := [fxCreated] }

/-- A stored spool at 800 g remaining, created at time 7. -/
def fxFil800 : Filament :=
  { id := 1
    name := "Spool One"
    profile_id := 1
    color_hex := "#ff6600"
    price_eur := 20
    weight_g := 1000
    spool_weight_g := 200
    remaining_g := 800
    print_temp_min := 190
    print_temp_max := 220
    created_at := 7 }

/-- A store holding only `fxFil800`. -/
def fxStore1 : Store := { profiles := [], filaments := [fxFil800] }

/-- An edit form resubmitting the weights of `fxFil800` with
`remaining_g` set to 5. -/
def fxUpdForm : FilamentForm :=
  { name := some "Spool One"
    profile_id := some 1
    color_hex := some "#ff6600"
    weight_g := some 1000
    spool_weight_g := some 200
    remaining_g := some 5
    print_temp_min := some 190
    print_temp_max := some 220
    price_eur := some 20 }

/-- The same edit form with `remaining_g` set to -5. -/
def fxNegForm : FilamentForm :=
  { name := some "Spool One"
    profile_id := some 1
    color_hex := some "#ff6600"
    weight_g := some 1000
    spool_weight_g := some 200
    remaining_g := some (-5)
    print_temp_min := some 190
    print_temp_max := some 220
    price_eur := some 20 }

/-- A spool with weight 1000, tare 200, remaining 620 (the spec example). -/
def fxSpool620 : Filament :=
  { id := 1
    name := "Example"
    profile_id := 1
    color_hex := "#000000"
    price_eur := 0
    weight_g := 1000
    spool_weight_g := 200
    remaining_g := 620
    print_temp_min := 0
    print_temp_max := 0
    created_at := 0 }

/-- The same spool with remaining 900 (more material than capacity). -/
def fxSpool900 : Filament := { fxSpool620 with remaining_g := 900 }

/-- Profile 1. -/
def fxProfile1 : Profile :=
  { id := 1, vendor := "VendorA", material := "PLA", density := 1, diameter := 2 }

/-- Profile 2. -/
def fxProfile2 : Profile :=
  { id := 2, vendor := "VendorB", material := "PETG", density := 1, diameter := 2 }

/-- A filament referencing profile 1, created at time 10. -/
def fxFilOnP1 : Filament := { fxFil800 with id := 2, profile_id := 1, created_at := 10 }

/-- Two profiles, one filament on profile 1. -/
def fxProfStore : Store := { profiles := [fxProfile1, fxProfile2], filaments := [fxFilOnP1] }

/-- A profile form submitting a negative density. -/
def fxNegDensityForm : ProfileForm :=
  { vendor := some "ACME", material := some "PLA", density := some (-1), diameter := some 1.75 }

/-- A create form with name and profile only; every numeric field NaN. -/
def fxOmitForm : FilamentForm :=
  { name := some "Mystery"
    profile_id := some 3
    color_hex := none
    weight_g := none
    spool_weight_g := none
    remaining_g := none
    print_temp_min := none
    print_temp_max := none
    price_eur := none }

/-! Helper lemmas. -/

/-- The `Number(x) || d` fallback never returns 0 when the default is
nonzero. -/
theorem numOr_ne_zero {v : JsNum} {d : ℚ} (hd : d ≠ 0) : numOr v d ≠ 0 := by
  rcases v with _ | q
  · exact hd
  · by_cases hq : q = 0
    · simpa [numOr, hq] using hd
    · simp [numOr, hq]

/-! Claims. -/

/-- Claim C1: every successful createFilament stores
remaining_g = max(weightG - spoolWeightG, 0) on the new row: it equals
weightG - spoolWeightG whenever weightG ≥ spoolWeightG, and 0 whenever
weightG < spoolWeightG. -/
theorem create_remaining_clamped (st : Store) (form : FilamentForm) (newId : ℚ)
    (now : ℕ) (st' : Store)
    (h : postFilamentsNew st form newId now = .ok st') :
    ∃ f : Filament,
      st'.filaments = st.filaments ++ [f] ∧
      f.remaining_g = max (numOr form.weight_g 0 - numOr form.spool_weight_g 0) 0 ∧
      (numOr form.spool_weight_g 0 ≤ numOr form.weight_g 0 →
        f.remaining_g = numOr form.weight_g 0 - numOr form.spool_weight_g 0) ∧
      (numOr form.weight_g 0 < numOr form.spool_weight_g 0 →
        f.remaining_g = 0) := by
  simp only [postFilamentsNew] at h
  split at h
  · exact absurd h (by simp)
  · rw [Except.ok.injEq] at h
    subst h
    refine ⟨_, rfl, ?_, ?_, ?_⟩
    · simp [parseFilamentFormData]
    · intro hle
      simp [parseFilamentFormData, max_eq_left (sub_nonneg.mpr hle)]
    · intro hlt
      simp [parseFilamentFormData, max_eq_right (sub_nonpos.mpr (le_of_lt hlt))]

/-- Claim C1 witness: creating from `fxCreateForm` (1000 g gross, 200 g
tare) stores remaining_g = 800. -/
theorem create_remaining_clamped_witness :
    ∃ f : Filament,
      fxCreatedStore.filaments = emptyStore.filaments ++ [f] ∧
      f.remaining_g =
        max (numOr fxCreateForm.weight_g 0 - numOr fxCreateForm.spool_weight_g 0) 0 ∧
      (numOr fxCreateForm.spool_weight_g 0 ≤ numOr fxCreateForm.weight_g 0 →
        f.remaining_g = numOr fxCreateForm.weight_g 0 - numOr fxCreateForm.spool_weight_g 0) ∧
      (numOr fxCreateForm.weight_g 0 < numOr fxCreateForm.spool_weight_g 0 →
        f.remaining_g = 0) :=
  create_remaining_clamped emptyStore fxCreateForm 1 5 fxCreatedStore
    (by norm_num [postFilamentsNew, parseFilamentFormData, fxCreateForm, fxCreated,
      fxCreatedStore, emptyStore, numOr, numOrNull, strFalsy,
      show ("Spool One" : String) ≠ "" by decide])

/-- Claim C2 counterexample: updating the 1000 g / 200 g spool while
submitting remaining_g = 5 stores 5, not the recomputed
max(1000 - 200, 0) = 800: the update does not recompute remaining_g
from the submitted weights. -/
theorem update_keeps_submitted_remaining_cex :
    postFilamentsUpdate fxStore1 1 fxUpdForm =
      .ok { profiles := [], filaments := [{ fxFil800 with remaining_g := 5 }] } ∧
    ({ fxFil800 with remaining_g := 5 } : Filament).remaining_g ≠
      max ((1000 : ℚ) - 200) 0 := by
  constructor
  · norm_num [postFilamentsUpdate, parseFilamentFormData, fxStore1, fxUpdForm, fxFil800,
      numOr, numOrNull, strFalsy, show ("Spool One" : String) ≠ "" by decide]
  · norm_num [fxFil800]

/-- Claim C2 (amended): a successful updateFilament stores the submitted
remaining_g (with 0 substituted when the field is missing, zero or
unparsable) on the matching row; it does not recompute it from the
weights. -/
theorem update_stores_submitted_remaining (st : Store) (id : ℚ)
    (form : FilamentForm) (st' : Store)
    (h : postFilamentsUpdate st id form = .ok st')
    (f : Filament) (hf : f ∈ st.filaments) (hid : f.id = id) :
    ∃ f' ∈ st'.filaments, f'.id = id ∧ f'.remaining_g = numOr form.remaining_g 0 := by
  simp only [postFilamentsUpdate] at h
  split at h
  · exact absurd h (by simp)
  · rw [Except.ok.injEq] at h
    subst h
    refine ⟨_, List.mem_map_of_mem _ hf, ?_⟩
    simp [hid, parseFilamentFormData]

/-- Claim C2 witness: the update of `fxStore1` through `fxUpdForm`
leaves a row with remaining_g = numOr (some 5) 0 = 5. -/
theorem update_stores_submitted_remaining_witness :
    ∃ f' ∈ ({ profiles := [],
              filaments := [{ fxFil800 with remaining_g := 5 }] } : Store).filaments,
      f'.id = 1 ∧ f'.remaining_g = numOr fxUpdForm.remaining_g 0 :=
  update_stores_submitted_remaining fxStore1 1 fxUpdForm _
    (by norm_num [postFilamentsUpdate, parseFilamentFormData, fxStore1, fxUpdForm, fxFil800,
      numOr, numOrNull, strFalsy, show ("Spool One" : String) ≠ "" by decide])
    fxFil800 (by simp [fxStore1]) (by norm_num [fxFil800])

/-- Claim C3 counterexample: with weight 1000, tare 200, remaining 900
the displayed percent is 113, outside the claimed clamp to [0, 100]; the
display is not clamped. -/
theorem percentage_unclamped_cex :
    percentage fxSpool900 = 113 ∧ ¬(percentage fxSpool900 ≤ 100) := by
  have h : percentage fxSpool900 = 113 := by
    norm_num [percentage, jsRound, fxSpool900, fxSpool620, Rat.floor]
  exact ⟨h, by rw [h]; decide⟩

/-- Claim C3 (amended): the displayed percent is 0 whenever
remaining_g ≤ 0 (the code keys the zero case on remaining_g, not on the
denominator), and equals round(remaining_g / (weight_g - spool_weight_g)
· 100) without clamping whenever remaining_g > 0; for weight 1000, tare
200, remaining 620 it is 78. -/
theorem percentage_formula (f : Filament) :
    (f.remaining_g ≤ 0 → percentage f = 0) ∧
    (0 < f.remaining_g →
      percentage f = jsRound (f.remaining_g / (f.weight_g - f.spool_weight_g) * 100)) ∧
    percentage fxSpool620 = 78 := by
  refine ⟨fun hle => ?_, fun hlt => ?_, ?_⟩
  · simp [percentage, not_lt.mpr hle]
  · simp [percentage, hlt]
  · norm_num [percentage, jsRound, fxSpool620, Rat.floor]

/-- Claim C4: deleting a profile fails with the conflict error (and so
changes neither table) when at least one filament references it;
otherwise it succeeds, leaves the filaments table unchanged, and removes
exactly the profile rows whose id matches - the one row when the id
occurs once. -/
theorem deleteProfile_conflict_or_removes (st : Store) (id : ℚ) :
    ((∃ f ∈ st.filaments, f.profile_id = id) →
      postProfilesDelete st id =
        .error (.conflict "This profile cannot be deleted because it is used by filaments.")) ∧
    ((∀ f ∈ st.filaments, f.profile_id ≠ id) →
      postProfilesDelete st id =
        .ok { st with profiles := st.profiles.filter (fun q => !(q.id == id)) } ∧
      (∀ l₁ l₂ p, st.profiles = l₁ ++ p :: l₂ → p.id = id →
        (∀ q ∈ l₁, q.id ≠ id) → (∀ q ∈ l₂, q.id ≠ id) →
        st.profiles.filter (fun q => !(q.id == id)) = l₁ ++ l₂)) := by
  constructor
  · rintro ⟨f, hf, hpid⟩
    have hmem : f ∈ st.filaments.filter (fun g => g.profile_id == id) :=
      List.mem_filter.mpr ⟨hf, by simp [hpid]⟩
    have hlen : 0 < (st.filaments.filter (fun g => g.profile_id == id)).length :=
      List.length_pos_of_mem hmem
    simp only [postProfilesDelete]
    rw [if_pos hlen]
  · intro hnone
    have hzero : ¬(0 < (st.filaments.filter (fun g => g.profile_id == id)).length) := by
      have : st.filaments.filter (fun g => g.profile_id == id) = [] := by
        rw [List.filter_eq_nil_iff]
        intro g hg
        simp [hnone g hg]
      simp [this]
    constructor
    · simp only [postProfilesDelete]
      rw [if_neg hzero]
    · intro l₁ l₂ p hsplit hpid h₁ h₂
      have e₁ : l₁.filter (fun q => !(q.id == id)) = l₁ :=
        List.filter_eq_self.mpr (fun q hq => by simpa using h₁ q hq)
      have e₂ : l₂.filter (fun q => !(q.id == id)) = l₂ :=
        List.filter_eq_self.mpr (fun q hq => by simpa using h₂ q hq)
      rw [hsplit, List.filter_append, List.filter_cons, e₁, e₂]
      simp [hpid]

/-- Claim C5 counterexample: an update submitting remaining_g = -5 on a
well-formed store stores -5, so remaining_g ≥ 0 is not preserved for all
submitted inputs. -/
theorem negative_remaining_stored_cex :
    postFilamentsUpdate fxStore1 1 fxNegForm =
      .ok { profiles := [], filaments := [{ fxFil800 with remaining_g := -5 }] } ∧
    ({ fxFil800 with remaining_g := -5 } : Filament).remaining_g < 0 := by
  constructor
  · norm_num [postFilamentsUpdate, parseFilamentFormData, fxStore1, fxNegForm, fxFil800,
      numOr, numOrNull, strFalsy, show ("Spool One" : String) ≠ "" by decide]
  · norm_num [fxFil800]

/-- Claim C5 (amended): remaining_g ≥ 0 is an invariant preserved by
every createFilament unconditionally, and by updateFilament exactly when
the submitted remaining_g parses to a nonnegative value; a negative
submitted remaining_g on update is stored as-is and breaks it. -/
theorem remaining_nonneg_preservation (st st' : Store)
    (hinv : ∀ f ∈ st.filaments, 0 ≤ f.remaining_g) :
    (∀ form newId now, postFilamentsNew st form newId now = .ok st' →
      ∀ f ∈ st'.filaments, 0 ≤ f.remaining_g) ∧
    (∀ id form, 0 ≤ numOr form.remaining_g 0 →
      postFilamentsUpdate st id form = .ok st' →
      ∀ f ∈ st'.filaments, 0 ≤ f.remaining_g) := by
  constructor
  · intro form newId now h f hf
    simp only [postFilamentsNew] at h
    split at h
    · exact absurd h (by simp)
    · rw [Except.ok.injEq] at h
      subst h
      simp only [List.mem_append, List.mem_singleton] at hf
      rcases hf with hf | hf
      · exact hinv f hf
      · subst hf
        simp only [parseFilamentFormData]
        exact le_max_right _ _
  · intro id form hpos h f hf
    simp only [postFilamentsUpdate] at h
    split at h
    · exact absurd h (by simp)
    · rw [Except.ok.injEq] at h
      subst h
      simp only [List.mem_map] at hf
      obtain ⟨g, hg, rfl⟩ := hf
      by_cases hid : (g.id == id) = true
      · simpa [hid, parseFilamentFormData] using hpos
      · simp only [hid, if_neg, Bool.false_eq_true, not_false_iff, if_false]
        exact hinv g hg

/-- Claim C5 witness: after creating from `fxCreateForm` the invariant
holds on the created row (remaining_g = 800 ≥ 0). -/
theorem remaining_nonneg_preservation_witness :
    (0 : ℚ) ≤ fxCreated.remaining_g :=
  (remaining_nonneg_preservation emptyStore fxCreatedStore (by simp [emptyStore])).1
    fxCreateForm 1 5
    (by norm_num [postFilamentsNew, parseFilamentFormData, fxCreateForm, fxCreated,
      fxCreatedStore, emptyStore, numOr, numOrNull, strFalsy,
      show ("Spool One" : String) ≠ "" by decide])
    fxCreated (by simp [fxCreatedStore])

/-- Claim C6 counterexample: createProfile accepts a submitted density
of -1 (no ValidationError) and inserts it; missing or non-positive
density is not rejected. -/
theorem createProfile_negative_density_cex :
    postProfilesNew emptyStore fxNegDensityForm 1 =
      .ok { profiles := [{ id := 1, vendor := "ACME", material := "PLA",
                           density := -1, diameter := 1.75 }], filaments := [] } ∧
    (-1 : ℚ) ≤ 0 := by
  constructor
  · norm_num [postProfilesNew, parseProfileFormData, fxNegDensityForm, emptyStore,
      numOr, strFalsy, show ("ACME" : String) ≠ "" by decide,
      show ("PLA" : String) ≠ "" by decide]
  · norm_num

/-- Claim C6 (amended): createProfile fails with the ValidationError
exactly when vendor or material is missing or empty; density and
diameter are never rejected: a missing, zero or unparsable value
defaults to 1.24 and 1.75 respectively, and any other value - negative
ones included - is inserted as submitted. -/
theorem createProfile_validation (st : Store) (form : ProfileForm) (newId : ℚ) :
    ((strFalsy form.vendor || strFalsy form.material) = true →
      postProfilesNew st form newId =
        .error (.validation "Vendor, Material, Density, and Diameter are required.")) ∧
    ((strFalsy form.vendor || strFalsy form.material) = false →
      postProfilesNew st form newId =
        .ok { st with profiles := st.profiles ++
          [{ id := newId
             vendor := form.vendor.getD ""
             material := form.material.getD ""
             density := numOr form.density 1.24
             diameter := numOr form.diameter 1.75 }] }) := by
  constructor
  · intro hbad
    have hb : strFalsy form.vendor = true ∨ strFalsy form.material = true := by
      simpa using hbad
    rcases hb with hb | hb <;>
      simp [postProfilesNew, parseProfileFormData, hb]
  · intro hgood
    have hg : strFalsy form.vendor = false ∧ strFalsy form.material = false := by
      simpa using hgood
    have h1 : numOr form.density 1.24 ≠ 0 := numOr_ne_zero (by norm_num)
    have h2 : numOr form.diameter 1.75 ≠ 0 := numOr_ne_zero (by norm_num)
    simp [postProfilesNew, parseProfileFormData, hg.1, hg.2, h1, h2]

/-- Claim C7: fetchFilaments performs no write (the store side of the
operation is returned untouched), degrades a failed store access to the
empty list rather than an error, and on success returns a permutation of
the profile-filtered filament-profile join, ordered newest created_at
first. -/
theorem fetchFilaments_readonly_sorted (db : Except String Store) (pid : JsNum) :
    (fetchFilamentsOp db pid).1 = db ∧
    (∀ e, db = .error e → (fetchFilamentsOp db pid).2 = []) ∧
    (∀ st, db = .ok st →
      ((fetchFilamentsOp db pid).2).Perm
        (if jsTruthy pid then
          (joinFilamentsProfiles st).filter
            (fun r => r.filament.profile_id == pid.getD 0)
         else joinFilamentsProfiles st) ∧
      ((fetchFilamentsOp db pid).2).Pairwise
        (fun a b => b.filament.created_at ≤ a.filament.created_at)) := by
  refine ⟨?_, ?_, ?_⟩
  · cases db <;> rfl
  · intro e he
    subst he
    rfl
  · intro st hst
    subst hst
    constructor
    · simp only [fetchFilamentsOp]
      exact List.mergeSort_perm _ _
    · simp only [fetchFilamentsOp]
      refine List.Pairwise.imp ?_ (@List.sorted_mergeSort _ newestFirst ?_ ?_ _)
      · intro a b hab
        simpa [newestFirst] using hab
      · intro a b c hab hbc
        simp only [newestFirst, decide_eq_true_eq] at hab hbc ⊢
        exact le_trans hbc hab
      · intro a b
        simp only [newestFirst]
        rcases Nat.le_total b.filament.created_at a.filament.created_at with h | h <;>
          simp [h]

/-- Claim C8 counterexample: deleting filament id 1 from an empty store
succeeds (the handler redirects after deleting zero rows); no
NotFoundError exists for a missing id. -/
theorem delete_missing_filament_succeeds_cex :
    postFilamentsDelete emptyStore 1 = .ok emptyStore ∧
    emptyStore.filaments = [] := by
  constructor
  · norm_num [postFilamentsDelete, emptyStore]
  · rfl

/-- Claim C8 (amended): deleteFilament succeeds unconditionally, whether
or not the id exists: it removes exactly the rows whose id matches (the
one row when the id occurs once), is a no-op when the id is absent, and
never produces a NotFoundError. -/
theorem deleteFilament_unconditional (st : Store) (id : ℚ) :
    postFilamentsDelete st id =
      .ok { st with filaments := st.filaments.filter (fun f => !(f.id == id)) } ∧
    ((∀ f ∈ st.filaments, f.id ≠ id) → postFilamentsDelete st id = .ok st) ∧
    (∀ l₁ l₂ f, st.filaments = l₁ ++ f :: l₂ → f.id = id →
      (∀ g ∈ l₁, g.id ≠ id) → (∀ g ∈ l₂, g.id ≠ id) →
      postFilamentsDelete st id = .ok { st with filaments := l₁ ++ l₂ }) := by
  refine ⟨rfl, ?_, ?_⟩
  · intro hnone
    have he : st.filaments.filter (fun f => !(f.id == id)) = st.filaments :=
      List.filter_eq_self.mpr (fun f hf => by simpa using hnone f hf)
    simp only [postFilamentsDelete, he]
  · intro l₁ l₂ f hsplit hid h₁ h₂
    have e₁ : l₁.filter (fun g => !(g.id == id)) = l₁ :=
      List.filter_eq_self.mpr (fun g hg => by simpa using h₁ g hg)
    have e₂ : l₂.filter (fun g => !(g.id == id)) = l₂ :=
      List.filter_eq_self.mpr (fun g hg => by simpa using h₂ g hg)
    simp only [postFilamentsDelete, hsplit, List.filter_append, List.filter_cons, e₁, e₂]
    simp [hid]

/-- Claim C9: a successful updateFilament changes neither the id nor the
created_at of any row: the table's id-to-created_at association is
exactly what it was before the update. -/
theorem update_preserves_created_at (st : Store) (id : ℚ) (form : FilamentForm)
    (st' : Store) (h : postFilamentsUpdate st id form = .ok st') :
    st'.filaments.map (fun f => (f.id, f.created_at)) =
      st.filaments.map (fun f => (f.id, f.created_at)) := by
  simp only [postFilamentsUpdate] at h
  split at h
  · exact absurd h (by simp)
  · rw [Except.ok.injEq] at h
    subst h
    simp only [List.map_map]
    apply List.map_congr_left
    intro f _
    by_cases hid : f.id = id <;> simp [hid]

/-- Claim C9 witness: the update of `fxStore1` through `fxUpdForm` keeps
id 1 and created_at 7 on the row. -/
theorem update_preserves_created_at_witness :
    ({ profiles := [], filaments := [{ fxFil800 with remaining_g := 5 }] } : Store).filaments.map
        (fun f => (f.id, f.created_at)) =
      fxStore1.filaments.map (fun f => (f.id, f.created_at)) :=
  update_preserves_created_at fxStore1 1 fxUpdForm _
    (by norm_num [postFilamentsUpdate, parseFilamentFormData, fxStore1, fxUpdForm, fxFil800,
      numOr, numOrNull, strFalsy, show ("Spool One" : String) ≠ "" by decide])

/-- Claim C10: a createFilament whose price, temperature or weight
fields are omitted (the parse gives 0) or unparsable (the parse gives
NaN) still succeeds when name and profile are present, and stores 0 for
each such field instead of rejecting or storing null. -/
theorem create_defaults_missing_to_zero (st : Store) (form : FilamentForm)
    (newId : ℚ) (now : ℕ)
    (hname : strFalsy form.name = false)
    (hpid : numOr form.profile_id 0 ≠ 0) :
    ∃ f : Filament,
      postFilamentsNew st form newId now =
        .ok { st with filaments := st.filaments ++ [f] } ∧
      ((form.weight_g = none ∨ form.weight_g = some 0) → f.weight_g = 0) ∧
      ((form.spool_weight_g = none ∨ form.spool_weight_g = some 0) →
        f.spool_weight_g = 0) ∧
      ((form.print_temp_min = none ∨ form.print_temp_min = some 0) →
        f.print_temp_min = 0) ∧
      ((form.print_temp_max = none ∨ form.print_temp_max = some 0) →
        f.print_temp_max = 0) ∧
      ((form.price_eur = none ∨ form.price_eur = some 0) → f.price_eur = 0) := by
  refine ⟨{ id := newId
            name := form.name.getD ""
            profile_id := numOr form.profile_id 0
            color_hex := form.color_hex.getD "#000000"
            price_eur := (numOrNull form.price_eur).getD 0
            weight_g := numOr form.weight_g 0
            spool_weight_g := numOr form.spool_weight_g 0
            remaining_g := max (numOr form.weight_g 0 - numOr form.spool_weight_g 0) 0
            print_temp_min := (numOrNull form.print_temp_min).getD 0
            print_temp_max := (numOrNull form.print_temp_max).getD 0
            created_at := now }, ?_, ?_, ?_, ?_, ?_, ?_⟩
  · simp [postFilamentsNew, parseFilamentFormData, hname, hpid]
  · rintro (h | h) <;> simp [numOr, h]
  · rintro (h | h) <;> simp [numOr, h]
  · rintro (h | h) <;> simp [numOrNull, h]
  · rintro (h | h) <;> simp [numOrNull, h]
  · rintro (h | h) <;> simp [numOrNull, h]

/-- Claim C10 witness: creating from `fxOmitForm` (name and profile
only, all numeric fields NaN) succeeds and stores 0 for the weights,
temperatures and price. -/
theorem create_defaults_missing_to_zero_witness :
    ∃ f : Filament,
      postFilamentsNew emptyStore fxOmitForm 1 5 =
        .ok { emptyStore with filaments := emptyStore.filaments ++ [f] } ∧
      ((fxOmitForm.weight_g = none ∨ fxOmitForm.weight_g = some 0) → f.weight_g = 0) ∧
      ((fxOmitForm.spool_weight_g = none ∨ fxOmitForm.spool_weight_g = some 0) →
        f.spool_weight_g = 0) ∧
      ((fxOmitForm.print_temp_min = none ∨ fxOmitForm.print_temp_min = some 0) →
        f.print_temp_min = 0) ∧
      ((fxOmitForm.print_temp_max = none ∨ fxOmitForm.print_temp_max = some 0) →
        f.print_temp_max = 0) ∧
      ((fxOmitForm.price_eur = none ∨ fxOmitForm.price_eur = some 0) → f.price_eur = 0) :=
  create_defaults_missing_to_zero emptyStore fxOmitForm 1 5
    (by decide)
    (by norm_num [fxOmitForm, numOr])

end FilamentManager
